import Mathlib

/-!
Verification development for the youtube-unofficial client
(src/youtube_unofficial/__init__.py and src/youtube_unofficial/constants.py).

The Python client is shallowly embedded: network responses become explicit
input lists, raised exceptions become an error value of type PyErr, a
generator becomes a function yielding the list of items the iteration
produces, and the HTTP traffic of an operation becomes an explicit event
trace of type Ev. Machine arithmetic of the SHA-1 computation is carried
out on Nat with explicit reduction modulo 2 ^ 32.
-/

/-- The Python exception kinds reachable in the modelled code paths. -/
inductive PyErr
  | authenticationError
  | httpError
  | keyError
  | indexError
  | typeError
  | assertionError
deriving DecidableEq, Repr

/-- Outcome of a Python call: a returned value or a raised exception. -/
inductive PyResult (α : Type)
  | ok (val : α)
  | raised (err : PyErr)
deriving DecidableEq, Repr

/-! ## SHA-1, as computed by hashlib.sha1 in _authorization_sapisidhash_header

The standard SHA-1 algorithm over a list of bytes (Nat values below 256),
needed because line 431-433 of the client hashes
str(now) + one space + sapisid + one space + origin. -/

/-- Left rotation of a 32 bit word represented as a Nat below 2 ^ 32. -/
def rotl32 (k n : Nat) : Nat :=
  ((n <<< k) % 4294967296) ||| (n >>> (32 - k))

/-- The SHA-1 round function for round i on words b, c, d. -/
def sha1F (i b c d : Nat) : Nat :=
  if i < 20 then (b &&& c) ||| ((b ^^^ 4294967295) &&& d)
  else if i < 40 then (b ^^^ c) ^^^ d
  else if i < 60 then ((b &&& c) ||| (b &&& d)) ||| (c &&& d)
  else (b ^^^ c) ^^^ d

/-- The SHA-1 round constant for round i. -/
def sha1K (i : Nat) : Nat :=
  if i < 20 then 1518500249
  else if i < 40 then 1859775393
  else if i < 60 then 2400959708
  else 3395469782

/-- The 80 SHA-1 rounds: state is the tuple (a, b, c, d, e). -/
def sha1Rounds : Nat → List Nat → Nat × Nat × Nat × Nat × Nat → Nat × Nat × Nat × Nat × Nat
  | _, [], st => st
  | i, w :: ws, st =>
    let t := (rotl32 5 st.1 + sha1F i st.2.1 st.2.2.1 st.2.2.2.1 + st.2.2.2.2 + sha1K i + w) % 4294967296
    sha1Rounds (i + 1) ws (t, st.1, rotl32 30 st.2.1, st.2.2.1, st.2.2.2.1)

/-- Message-schedule extension: accRev holds the words built so far, most
recent first; the counter says how many words are still to be added. -/
def sha1Extend (accRev : List Nat) : Nat → List Nat
  | 0 => accRev.reverse
  | n + 1 =>
    let w := rotl32 1 (((accRev.getD 2 0) ^^^ (accRev.getD 7 0)) ^^^ ((accRev.getD 13 0) ^^^ (accRev.getD 15 0)))
    sha1Extend (w :: accRev) n

/-- Big-endian packing of bytes into 32 bit words, four bytes per word. -/
def bytesToWords : List Nat → List Nat
  | b0 :: b1 :: b2 :: b3 :: rest => (((b0 * 256 + b1) * 256 + b2) * 256 + b3) :: bytesToWords rest
  | _ => []

/-- The k-byte big-endian representation of n, each byte reduced mod 256. -/
def beBytes : Nat → Nat → List Nat
  | 0, _ => []
  | k + 1, n => ((n >>> (8 * k)) % 256) :: beBytes k n

/-- SHA-1 padding: byte 128, zero bytes up to 56 mod 64, then the bit
length as 8 big-endian bytes. -/
def sha1Pad (msg : List Nat) : List Nat :=
  msg ++ 128 :: List.replicate ((119 - msg.length % 64) % 64) 0 ++ beBytes 8 (8 * msg.length)

/-- Process one 64-byte chunk into the running hash state. -/
def sha1Chunk (st : Nat × Nat × Nat × Nat × Nat) (chunk : List Nat) : Nat × Nat × Nat × Nat × Nat :=
  let w := sha1Extend ((bytesToWords chunk).reverse) 64
  let r := sha1Rounds 0 w st
  ((st.1 + r.1) % 4294967296,
   (st.2.1 + r.2.1) % 4294967296,
   (st.2.2.1 + r.2.2.1) % 4294967296,
   (st.2.2.2.1 + r.2.2.2.1) % 4294967296,
   (st.2.2.2.2 + r.2.2.2.2) % 4294967296)

/-- Fold the chunks; the fuel argument is the number of 64-byte chunks. -/
def sha1ChunksF : Nat → (Nat × Nat × Nat × Nat × Nat) → List Nat → Nat × Nat × Nat × Nat × Nat
  | 0, st, _ => st
  | f + 1, st, bytes => sha1ChunksF f (sha1Chunk st (bytes.take 64)) (bytes.drop 64)

/-- The SHA-1 initial state. -/
def sha1Init : Nat × Nat × Nat × Nat × Nat :=
  (1732584193, 4023233417, 2562383102, 271733878, 3285377520)

/-- The 20-byte SHA-1 digest of a byte list. -/
def sha1Bytes (msg : List Nat) : List Nat :=
  let padded := sha1Pad msg
  let st := sha1ChunksF (padded.length / 64) sha1Init padded
  beBytes 4 st.1 ++ beBytes 4 st.2.1 ++ beBytes 4 st.2.2.1 ++ beBytes 4 st.2.2.2.1 ++ beBytes 4 st.2.2.2.2

/-- Lowercase hexadecimal digit for a value below 16. -/
def hexDigit (n : Nat) : Char :=
  if n < 10 then Char.ofNat (48 + n) else Char.ofNat (87 + n)

/-- Two lowercase hex digits of one byte. -/
def byteToHex (b : Nat) : List Char :=
  [hexDigit (b / 16), hexDigit (b % 16)]

/-- The lowercase hex rendering of the SHA-1 digest, as hexdigest returns. -/
def sha1HexLower (msg : List Nat) : String :=
  String.mk (((sha1Bytes msg).map byteToHex).flatten)

/-- UTF-8 encoding of one character, as str.encode produces. -/
def utf8Char (c : Char) : List Nat :=
  let n := c.toNat
  if n < 128 then [n]
  else if n < 2048 then [192 + n / 64, 128 + n % 64]
  else if n < 65536 then [224 + n / 4096, 128 + n / 64 % 64, 128 + n % 64]
  else [240 + n / 262144, 128 + n / 4096 % 64, 128 + n / 64 % 64, 128 + n % 64]

/-- UTF-8 encoding of a string, as str.encode produces. -/
def encodeUTF8 (s : String) : List Nat :=
  (s.data.map utf8Char).flatten

/-! ## The SAPISIDHASH authorization header (lines 423-433)

The method reads the current timestamp, scans the cookie jar for the first
cookie named SAPISID or __Secure-3PAPISID, asserts one was found, and
returns SAPISIDHASH followed by the timestamp, an underscore and the
lowercase hex SHA-1 digest of timestamp, cookie value and origin joined by
single spaces. The jar is embedded as the list of (name, value) pairs in
iteration order; the timestamp is a Nat parameter. -/

/-- The origin string hard-coded at line 432. -/
def SAPISIDHASH_ORIGIN : String := "https://www.youtube.com"

/-- The hashed message of line 432: str(now), the cookie value and the
origin joined by single spaces. -/
def sapisidHashMessage (now : Nat) (sapisid : String) : String :=
  toString now ++ (" ") ++ sapisid ++ (" ") ++ SAPISIDHASH_ORIGIN

/-- The header value of line 433, as a function of the timestamp and the
selected cookie value. -/
def authorization_sapisidhash (now : Nat) (sapisid : String) : String :=
  ("SAPISIDHASH ") ++ toString now ++ ("_") ++ sha1HexLower (encodeUTF8 (sapisidHashMessage now sapisid))

/-- Whether a cookie name is accepted by the membership test of line 427. -/
def isSapisidName (n : String) : Bool :=
  n == ("SAPISID") || n == ("__Secure-3PAPISID")

/-- The loop of lines 426-429: value of the first matching cookie in jar
iteration order, none when the jar has no matching cookie. -/
def sapisidFromJar : List (String × String) → Option String
  | [] => none
  | c :: rest => if isSapisidName c.1 then some c.2 else sapisidFromJar rest

/-- The whole method: the assert of line 430 raises AssertionError when no
matching cookie exists, otherwise line 433 returns the header. -/
def authHeaderFromJar (now : Nat) (jar : List (String × String)) : PyResult String :=
  match sapisidFromJar jar with
  | none => .raised .assertionError
  | some s => .ok (authorization_sapisidhash now s)

/-! ## URL constants (src/youtube_unofficial/constants.py)

SEARCH_HISTORY_URL, WATCH_HISTORY_URL and COMMUNITY_HISTORY_URL are
imported by the client but are not defined in the constants module given
under src; their values are opaque placeholders here (no claim depends on
the values, only on which operation fetches which page). -/

def WATCH_LATER_URL : String := "https://www.youtube.com/playlist?list=WL"

def HISTORY_URL : String := "https://www.youtube.com/feed/history"

def BROWSE_AJAX_URL : String := "https://www.youtube.com/browse_ajax"

def SERVICE_AJAX_URL : String := "https://www.youtube.com/service_ajax"

def SEARCH_HISTORY_URL : String := "SEARCH_HISTORY_URL"

def WATCH_HISTORY_URL : String := "WATCH_HISTORY_URL"

def COMMUNITY_HISTORY_URL : String := "COMMUNITY_HISTORY_URL"

/-- The endpoint of the POST at line 119. -/
def EDIT_PLAYLIST_URL : String := "https://www.youtube.com/youtubei/v1/browse/edit_playlist"

/-- The default endpoint of _single_feedback_api_call (line 440). -/
def FEEDBACK_API_URL : String := "https://www.youtube.com/youtubei/v1/feedback"

/-- The default endpoint of delete_community_entry (line 550). -/
def COMMENT_ACTION_URL : String := "https://www.youtube.com/youtubei/v1/comment/perform_comment_action"

/-! ## HTTP event traces

Each operation is modelled with the trace of externally visible steps it
performs: fetch is a GET of an HTML page or of the browse_ajax endpoint
through the download helper, extract stands for find_ytcfg together with
initial_data on the fetched page (pure parsing of the page), walk for the
hard-coded key-path lookup into the parsed blob, and post for a follow-up
POST request. -/

inductive Ev
  | fetch (url : String)
  | extract
  | walk
  | post (url : String)
deriving DecidableEq, Repr

/-- Scan of a trace: true when every post event is preceded (anywhere
earlier in the trace) by both a fetch event and an extract event. The two
Bool arguments record whether a fetch, resp. an extract, was seen. -/
def postsGuarded : List Ev → Bool → Bool → Bool
  | [], _, _ => true
  | .fetch _ :: r, _, e => postsGuarded r true e
  | .extract :: r, f, _ => postsGuarded r f true
  | .walk :: r, f, e => postsGuarded r f e
  | .post _ :: r, f, e => f && e && postsGuarded r f e

/-- Every post of the trace comes after a fetch and an extract. -/
def postsGuardedOk (tr : List Ev) : Bool :=
  postsGuarded tr false false

/-! ## get_playlist_info (lines 177-247)

A response item of the playlist video list. pvr is some videoId when the
item carries playlistVideoRenderer; cirTok is some endpoint when the item
carries continuationItemRenderer, where the endpoint is some (token,
clickTrackingParams) when continuationEndpoint, continuationCommand.token
and clickTrackingParams are all present and none when that inner lookup
would raise KeyError. -/
structure PLItem where
  pvr : Option String
  cirTok : Option (Option (String × String))
deriving DecidableEq, Repr

/-- The item loop of lines 200-204 and 232-245: yield every item carrying
playlistVideoRenderer, stop at the first item carrying only
continuationItemRenderer, skip items carrying neither. -/
def yieldPVRs : List PLItem → List String
  | [] => []
  | it :: rest =>
    match it.pvr with
    | some v => v :: yieldPVRs rest
    | none => if it.cirTok.isSome then [] else yieldPVRs rest

/-- Whether some item of the page carries continuationItemRenderer, which
is what makes the loop of lines 232-245 reach its update branch. -/
def hasCIRItem (items : List PLItem) : Bool :=
  items.any (fun it => it.cirTok.isSome)

/-- The test of line 246 on the last item of the fetched page. An empty
item list is treated as carrying no renderer; in Python items[-1] raises
IndexError there, which also ends the iteration. -/
def lastHasCIR (items : List PLItem) : Bool :=
  match items.getLast? with
  | some it => it.cirTok.isSome
  | none => false

/-- The endpoint extraction of lines 209-214 and 237-244 applied to an
item list: token and clickTrackingParams of the continuation item of the
LAST item, none when a KeyError is swallowed by the except branch. -/
def lastCIRTok (items : List PLItem) : Option (String × String) :=
  match items.getLast? with
  | none => none
  | some it =>
    match it.cirTok with
    | some (some ti) => some ti
    | _ => none

/-- The token update of lines 236-244. Note that the source re-reads the
endpoint from video_list_renderer, the renderer of the page fetched before
the loop started, which is never reassigned inside the loop; it does not
read the freshly fetched items. -/
def plNextParams (vlr : List PLItem) (t i : String) (items : List PLItem) : String × String :=
  if hasCIRItem items then
    match lastCIRTok vlr with
    | some ti => ti
    | none => (t, i)
  else (t, i)

/-- The continuation loop of lines 216-247 over the successive browse_ajax
response pages. Returns the (ctoken, itct) request parameters of each
fetch made, in order, and the videoIds yielded by the loop. The loop ends
after the first page whose last item carries no continuationItemRenderer;
an empty page list means no further scripted responses. -/
def playlistLoop (vlr : List PLItem) (t i : String) : List (List PLItem) → List (String × String) × List String
  | [] => ([], [])
  | items :: rest =>
    if lastHasCIR items then
      let nxt := plNextParams vlr t i items
      let r := playlistLoop vlr nxt.1 nxt.2 rest
      ((t, i) :: r.1, yieldPVRs items ++ r.2)
    else ([(t, i)], yieldPVRs items)

/-- The playlist page URL built at line 182. -/
def playlistUrl (playlistId : String) : String :=
  ("https://www.youtube.com/playlist?list=") ++ playlistId

/-- The whole generator body. vlrOpt is the playlistVideoListRenderer
lookup of lines 189-193: none when that key path raises KeyError. The
result lists the yielded videoIds; the trace counts one browse_ajax fetch
per continuation page consumed. The loop of line 216 runs only when both
the initial token and the initial clickTrackingParams are truthy. -/
def get_playlist_info (loggedIn : Bool) (playlistId : String) (vlrOpt : Option (List PLItem)) (pages : List (List PLItem)) : List Ev × PyResult (List String) :=
  if loggedIn then
    match vlrOpt with
    | none => ([.fetch (playlistUrl playlistId), .extract, .walk], .raised .keyError)
    | some vlr =>
      let y0 := yieldPVRs vlr
      match lastCIRTok vlr with
      | some ti =>
        if ti.1 ≠ ("") ∧ ti.2 ≠ ("") then
          let r := playlistLoop vlr ti.1 ti.2 pages
          ([.fetch (playlistUrl playlistId), .extract, .walk] ++ r.1.map (fun _ => Ev.fetch BROWSE_AJAX_URL), .ok (y0 ++ r.2))
        else ([.fetch (playlistUrl playlistId), .extract, .walk], .ok y0)
      | none => ([.fetch (playlistUrl playlistId), .extract, .walk], .ok y0)
  else ([], .raised .authenticationError)

/-! ## get_history_info (lines 274-385)

A section of the feed. itemContents is some list when the section carries
itemSectionRenderer with contents (the entries yielded from it); cir
mirrors continuationItemRenderer exactly as in PLItem: some (some (token,
clickTrackingParams)) when the endpoint is complete, some none when the
renderer is present but the inner lookup raises KeyError. -/
structure HSection where
  itemContents : Option (List String)
  cir : Option (Option (String × String))
deriving DecidableEq, Repr

/-- A browse_ajax response page. sections is none when the key path
onResponseReceivedActions.0.appendContinuationItemsAction.continuationItems
raises KeyError (lines 339-346). -/
structure HPage where
  sections : Option (List HSection)
deriving DecidableEq, Repr

/-- Outcome of one scripted fetch attempt of the continuation loop: a
response page or an HTTPError raised by the download helper. -/
inductive FetchAttempt
  | success (p : HPage)
  | failure
deriving DecidableEq, Repr

/-- What scanning the sections of a fetched page ends in (lines 348-365):
a continuation was found in some section, none was found in any section,
or a KeyError propagated (a section with neither itemSectionRenderer nor a
complete continuationItemRenderer endpoint re-raises at line 365, or
raises while reading the endpoint inside the except branch). -/
inductive HContOutcome
  | found (tok itct : String)
  | noneFound
  | raised
deriving DecidableEq, Repr

/-- The section scan of the continuation loop (lines 348-365): yield the
contents of each itemSectionRenderer section in order; at the first
section without itemSectionRenderer, read its continuationItemRenderer and
stop, re-raising when that is absent or incomplete. When no section stops
the scan, the fallback of lines 366-379 always ends the loop, because
section_list_renderer is by then a list and indexing it with a string
raises the TypeError caught at line 374. -/
def histSections : List HSection → List String × HContOutcome
  | [] => ([], .noneFound)
  | s :: rest =>
    match s.itemContents with
    | some its =>
      let r := histSections rest
      (its ++ r.1, r.2)
    | none =>
      match s.cir with
      | some (some ti) => ([], .found ti.1 ti.2)
      | some none => ([], .raised)
      | none => ([], .raised)

/-- How the run of the history generator ends and what it did: the yielded
entries, the sleep durations executed in order, the exception the
generator raised (none when the iteration ended normally), and the number
of browse_ajax requests issued. -/
structure HistRun where
  items : List String
  sleeps : List Nat
  raised : Option PyErr
  fetchCount : Nat
deriving DecidableEq, Repr

/-- Whether a successfully fetched page carries no continuation token, the
condition under which the loop ends at this page: the key path of lines
339-346 raises, or the section scan finds no continuation (ending the loop
either through the re-raise of line 365 or through the fallback of lines
366-379, which inside the loop always raises the caught TypeError). -/
def hPageStops (p : HPage) : Bool :=
  match p.sections with
  | none => true
  | some secs =>
    match (histSections secs).2 with
    | .found _ _ => false
    | _ => true

/-- The entries a fetched page yields: the contents of the
itemSectionRenderer sections scanned before the scan stops, nothing when
the key path of lines 339-346 raises. -/
def pageItems (p : HPage) : List String :=
  match p.sections with
  | none => []
  | some secs => (histSections secs).1

/-- The exception the section scan of a fetched page propagates out of
the generator, if any: the re-raised KeyError of line 365 or the KeyError
raised while reading an incomplete endpoint inside the except branch. -/
def pageRaise (p : HPage) : Option PyErr :=
  match p.sections with
  | none => none
  | some secs =>
    match (histSections secs).2 with
    | .raised => some .keyError
    | _ => none

/-- The continuation loop of lines 312-385 as an automaton over the
scripted fetch attempts. tries counts the failures of the current round
(lines 313-332: tries starts at 0, each HTTPError increments it and sets
the next sleep to 2 ^ tries, the round gives up when tries reaches 5);
hadErr records whether last_exception is set in the current round, in
which case even a successful retry is followed by the break of line 336,
discarding the fetched page and ending the iteration without raising. A
page on which hPageStops holds ends the loop, yielding its entries and
raising pageRaise of it; otherwise its continuation feeds the next round.
An exhausted attempt list ends the run (no further responses are
scripted). -/
def histLoop (tries : Nat) (hadErr : Bool) : List FetchAttempt → HistRun
  | [] => ⟨[], [], none, 0⟩
  | .failure :: rest =>
    if tries + 1 < 5 then
      let r := histLoop (tries + 1) true rest
      ⟨r.items, 2 ^ (tries + 1) :: r.sleeps, r.raised, r.fetchCount + 1⟩
    else ⟨[], [], none, 1⟩
  | .success p :: rest =>
    if hadErr then ⟨[], [], none, 1⟩
    else if hPageStops p then ⟨pageItems p, [], pageRaise p, 1⟩
    else
      let r := histLoop 0 false rest
      ⟨pageItems p ++ r.items, r.sleeps, r.raised, r.fetchCount + 1⟩

/-- Outcome of the initial-page section scan of lines 287-299: a
continuation was found, none was found (the loop falls through silently on
sections without itemSectionRenderer and without continuationItemRenderer),
or a KeyError propagated from reading an incomplete endpoint inside the
except branch. -/
inductive HInitCont
  | found (tok itct : String)
  | nothing
  | raisedKey
deriving DecidableEq, Repr

/-- The initial-page section scan (lines 287-299). -/
def histInitSections : List HSection → List String × HInitCont
  | [] => ([], .nothing)
  | s :: rest =>
    match s.itemContents with
    | some its =>
      let r := histInitSections rest
      (its ++ r.1, r.2)
    | none =>
      match s.cir with
      | some (some ti) => ([], .found ti.1 ti.2)
      | some none => ([], .raisedKey)
      | none => histInitSections rest

/-- The initial history page: its sections and the continuations fallback
entry of lines 300-305. fallback none means the continuations key is
absent (KeyError, clean return); some list means it is present, and
indexing an empty list at line 302 raises IndexError. Each fallback entry
is its nextContinuationData (continuation, clickTrackingParams). -/
structure HInit where
  sections : List HSection
  fallback : Option (List (String × String))
deriving DecidableEq, Repr

/-- The whole generator body of get_history_info: auth check of lines
276-278, initial fetch and scan, then the continuation loop. -/
def get_history_info (loggedIn : Bool) (init : HInit) (stream : List FetchAttempt) : List Ev × HistRun :=
  if loggedIn then
    let base : List Ev := [.fetch HISTORY_URL, .extract, .walk]
    let r0 := histInitSections init.sections
    match r0.2 with
    | .raisedKey => (base, ⟨r0.1, [], some .keyError, 0⟩)
    | .found _ _ =>
      let r := histLoop 0 false stream
      (base ++ List.replicate r.fetchCount (.fetch BROWSE_AJAX_URL), ⟨r0.1 ++ r.items, r.sleeps, r.raised, r.fetchCount⟩)
    | .nothing =>
      match init.fallback with
      | none => (base, ⟨r0.1, [], none, 0⟩)
      | some [] => (base, ⟨r0.1, [], some .indexError, 0⟩)
      | some (_ :: _) =>
        let r := histLoop 0 false stream
        (base ++ List.replicate r.fetchCount (.fetch BROWSE_AJAX_URL), ⟨r0.1 ++ r.items, r.sleeps, r.raised, r.fetchCount⟩)
  else ([], ⟨[], [], some .authenticationError, 0⟩)

/-! ## _community_history (lines 489-541)

A fetched continuation page: the itemSectionContinuation of the response,
with its entries (commentHistoryEntryRenderer values) and its
continuations list (the continuation tokens). An absent continuations key
and an empty continuations list both make the truthiness test of lines
512-513 and 539-540 false, so they are embedded alike as the empty list. -/
structure CPage where
  entries : List String
  conts : List String
deriving DecidableEq, Repr

/-- The while loop of lines 516-540. conts is what remains of the for
statement iterating over the continuations of the section that was
current when the round began; secConts the continuations of the most
recently fetched section (what has_continuations is computed from);
pages the scripted browse_ajax responses in fetch order. Returns the
yielded entries and the number of pages fetched. When the pending
continuation entries run out, the while condition re-checks the last
fetched section and starts a new round over its continuations. -/
def commGo (conts secConts : List String) (pages : List CPage) : List String × Nat :=
  match pages with
  | [] => ([], 0)
  | p :: rest =>
    match conts with
    | _ :: cs =>
      let r := commGo cs p.conts rest
      (p.entries ++ r.1, r.2 + 1)
    | [] =>
      match secConts with
      | [] => ([], 0)
      | _ :: cs =>
        let r := commGo cs p.conts rest
        (p.entries ++ r.1, r.2 + 1)

/-- The whole generator body of _community_history: auth check of lines
492-494, initial fetch, yield of the first page, the early return of
lines 512-514, then the continuation loop. -/
def community_history (loggedIn onlyFirst : Bool) (entries0 conts0 : List String) (pages : List CPage) : List Ev × PyResult (List String) :=
  if loggedIn then
    let base : List Ev := [.fetch COMMUNITY_HISTORY_URL, .extract, .walk]
    if onlyFirst || conts0.isEmpty then (base, .ok entries0)
    else
      let r := commGo conts0 conts0 pages
      (base ++ List.replicate r.2 (.fetch BROWSE_AJAX_URL), .ok (entries0 ++ r.1))
  else ([], .raised .authenticationError)

/-! ## The account operations as event traces

The download helper (DownloadMixin, not under src; the specification
describes the component decomposition as a download helper and a login
helper and all operations as single request and response cycles) is
modelled from the spec as performing exactly one HTTP request per call and
raising HTTPError when that request fails: the transport below scripts
those outcomes. The only retry loop in the client is the one written out
inside get_history_info at lines 316-332. -/

/-- Scripted transport outcomes for an operation: whether the HTML page
GET succeeds, whether the follow-up POST succeeds, and the status string
carried by the POST response. -/
structure Transport where
  pageOk : Bool
  postOk : Bool
  postStatus : String
deriving DecidableEq, Repr

/-- Result of remove_video_id_from_playlist: its event trace, the value of
the _rsvi_cache attribute after the call, and the returned value. -/
structure RvifpOut where
  events : List Ev
  cache : Option Unit
  result : PyResult Bool
deriving DecidableEq, Repr

/-- remove_video_id_from_playlist (lines 88-136). cache is the _rsvi_cache
attribute before the call. With cache_values set and a non-empty cache the
page fetch and extraction are skipped and the cached values are reused
(lines 98-101); line 106-107 re-stores the values whenever cache_values is
set. The POST returns whether the response status is STATUS_SUCCEEDED. -/
def remove_video_id_from_playlist (loggedIn cacheValues : Bool) (cache : Option Unit) (tr : Transport) : RvifpOut :=
  if loggedIn then
    if cacheValues && cache.isSome then
      if tr.postOk then ⟨[.post EDIT_PLAYLIST_URL], some (), .ok (tr.postStatus == ("STATUS_SUCCEEDED"))⟩
      else ⟨[.post EDIT_PLAYLIST_URL], some (), .raised .httpError⟩
    else
      if tr.pageOk then
        let cache2 := if cacheValues then some () else cache
        if tr.postOk then
          ⟨[.fetch WATCH_LATER_URL, .extract, .post EDIT_PLAYLIST_URL], cache2, .ok (tr.postStatus == ("STATUS_SUCCEEDED"))⟩
        else ⟨[.fetch WATCH_LATER_URL, .extract, .post EDIT_PLAYLIST_URL], cache2, .raised .httpError⟩
      else ⟨[.fetch WATCH_LATER_URL], cache, .raised .httpError⟩
  else ⟨[], cache, .raised .authenticationError⟩

/-- clear_watch_history (lines 138-175). pathOk is whether the key path of
lines 154-159 into the initial data resolves; when it does not, the
KeyError is caught and the method returns without posting. -/
def clear_watch_history (loggedIn pageOk pathOk postOk : Bool) : List Ev × PyResult Unit :=
  if loggedIn then
    if pageOk then
      if pathOk then
        if postOk then ([.fetch HISTORY_URL, .extract, .walk, .post SERVICE_AJAX_URL], .ok ())
        else ([.fetch HISTORY_URL, .extract, .walk, .post SERVICE_AJAX_URL], .raised .httpError)
      else ([.fetch HISTORY_URL, .extract, .walk], .ok ())
    else ([.fetch HISTORY_URL], .raised .httpError)
  else ([], .raised .authenticationError)

/-- _toggle_history (lines 465-479) and _single_feedback_api_call (lines
435-463). pathOk is whether the at_path lookup of lines 471-475 resolves;
an unresolved path raises KeyError. processed is the isProcessed flag of
the feedback response. -/
def toggle_history (loggedIn : Bool) (pageUrl : String) (pageOk pathOk postOk processed : Bool) : List Ev × PyResult Bool :=
  if loggedIn then
    if pageOk then
      if pathOk then
        if postOk then ([.fetch pageUrl, .extract, .walk, .post FEEDBACK_API_URL], .ok processed)
        else ([.fetch pageUrl, .extract, .walk, .post FEEDBACK_API_URL], .raised .httpError)
      else ([.fetch pageUrl, .extract, .walk], .raised .keyError)
    else ([.fetch pageUrl], .raised .httpError)
  else ([], .raised .authenticationError)

/-- toggle_search_history (lines 481-483). -/
def toggle_search_history (loggedIn : Bool) (pageOk pathOk postOk processed : Bool) : List Ev × PyResult Bool :=
  toggle_history loggedIn SEARCH_HISTORY_URL pageOk pathOk postOk processed

/-- toggle_watch_history (lines 485-487). -/
def toggle_watch_history (loggedIn : Bool) (pageOk pathOk postOk processed : Bool) : List Ev × PyResult Bool :=
  toggle_history loggedIn WATCH_HISTORY_URL pageOk pathOk postOk processed

/-- delete_community_entry (lines 547-583). ytcfgGiven is whether the
caller passed a ytcfg; when it did, lines 555-557 skip the page fetch and
the POST goes out directly with the supplied values. -/
def delete_community_entry (loggedIn ytcfgGiven : Bool) (tr : Transport) : List Ev × PyResult Bool :=
  if loggedIn then
    if ytcfgGiven then
      if tr.postOk then ([.post COMMENT_ACTION_URL], .ok (tr.postStatus == ("STATUS_SUCCEEDED")))
      else ([.post COMMENT_ACTION_URL], .raised .httpError)
    else
      if tr.pageOk then
        if tr.postOk then ([.fetch COMMUNITY_HISTORY_URL, .extract, .post COMMENT_ACTION_URL], .ok (tr.postStatus == ("STATUS_SUCCEEDED")))
        else ([.fetch COMMUNITY_HISTORY_URL, .extract, .post COMMENT_ACTION_URL], .raised .httpError)
      else ([.fetch COMMUNITY_HISTORY_URL], .raised .httpError)
  else ([], .raised .authenticationError)

/-- clear_search_history (lines 585-599). -/
def clear_search_history (loggedIn pageOk pathOk postOk processed : Bool) : List Ev × PyResult Bool :=
  if loggedIn then
    if pageOk then
      if pathOk then
        if postOk then ([.fetch SEARCH_HISTORY_URL, .extract, .walk, .post FEEDBACK_API_URL], .ok processed)
        else ([.fetch SEARCH_HISTORY_URL, .extract, .walk, .post FEEDBACK_API_URL], .raised .httpError)
      else ([.fetch SEARCH_HISTORY_URL, .extract, .walk], .raised .keyError)
    else ([.fetch SEARCH_HISTORY_URL], .raised .httpError)
  else ([], .raised .authenticationError)

/-- A history entry as remove_video_ids_from_history reads it: its
videoRenderer videoId and its serviceEndpoint payload. -/
structure HistVid where
  videoId : String
  endpoint : String
deriving DecidableEq, Repr

/-- remove_video_ids_from_history (lines 387-421). history is the list the
history generator yields; respCode gives the code string of the deletion
response for each entry. Its second event component lists one POST per
matching entry; the result is True exactly when every response code is
SUCCESS. The events of the consumed history generator itself are not
repeated here. -/
def remove_video_ids_from_history (loggedIn : Bool) (videoIds : List String) (history : List HistVid) (respCode : HistVid → String) : List Ev × PyResult (Bool × List HistVid) :=
  if loggedIn then
    if videoIds.isEmpty then ([], .ok (false, []))
    else
      let entries := history.filter (fun x => videoIds.contains x.videoId)
      if entries.isEmpty then ([.fetch HISTORY_URL, .extract], .ok (false, []))
      else
        ([.fetch HISTORY_URL, .extract] ++ entries.map (fun _ => Ev.post SERVICE_AJAX_URL),
         .ok (entries.all (fun e => respCode e == ("SUCCESS")), entries))
  else ([], .raised .authenticationError)

/-- The per-video removals of clear_playlist (lines 266-268): each video
triggers one remove_video_id_from_playlist call with default arguments; an
HTTPError from one of them propagates and stops the loop. -/
def runRemovals (tr : Transport) : List String → List Ev × PyResult Unit
  | [] => ([], .ok ())
  | _ :: rest =>
    let r := remove_video_id_from_playlist true false none tr
    match r.result with
    | .raised e => (r.events, .raised e)
    | .ok _ =>
      let rr := runRemovals tr rest
      (r.events ++ rr.1, rr.2)

/-- clear_playlist (lines 249-268): auth check, consume the playlist
generator (a KeyError from it is caught and ends the call), then remove
each yielded video. -/
def clear_playlist (loggedIn : Bool) (playlistId : String) (vlrOpt : Option (List PLItem)) (pages : List (List PLItem)) (tr : Transport) : List Ev × PyResult Unit :=
  if loggedIn then
    let g := get_playlist_info true playlistId vlrOpt pages
    match g.2 with
    | .raised _ => (g.1, .ok ())
    | .ok ids =>
      let rr := runRemovals tr ids
      (g.1 ++ rr.1, rr.2)
  else ([], .raised .authenticationError)

/-- clear_watch_later (lines 270-272). -/
def clear_watch_later (loggedIn : Bool) (vlrOpt : Option (List PLItem)) (pages : List (List PLItem)) (tr : Transport) : List Ev × PyResult Unit :=
  clear_playlist loggedIn ("WL") vlrOpt pages tr

/-! ## The client state: the only attribute any operation mutates

The constructor sets _rsvi_cache to None at line 58. The only assignment
to it anywhere in the class is line 107 inside
remove_video_id_from_playlist, which runs exactly when cache_values is
set. Every other method neither reads nor writes the attribute, so its
state transition is the identity. -/

structure ClientState where
  rsviCache : Option Unit
deriving DecidableEq, Repr

/-- The state the constructor of lines 33-58 leaves behind. -/
def initState : ClientState := ⟨none⟩

/-- The public operations of the client. -/
inductive Op
  | removeVideoIdFromPlaylist (cacheValues : Bool)
  | clearWatchHistory
  | getPlaylistInfo
  | clearPlaylist
  | clearWatchLater
  | getHistoryInfo
  | removeVideoIdsFromHistory
  | toggleSearchHistory
  | toggleWatchHistory
  | communityHistory
  | deleteCommunityEntry
  | clearSearchHistory
  | login
deriving DecidableEq, Repr

/-- Effect of a completed operation on the _rsvi_cache attribute. -/
def cacheStep : Op → ClientState → ClientState
  | .removeVideoIdFromPlaylist cacheValues, st => if cacheValues then ⟨some ()⟩ else st
  | _, st => st

/-! ## Concrete fixtures used by the evaluation theorems below -/

/-- An initial playlist renderer: its last item carries a continuation
item with token t0 and click-tracking i0. -/
def plVlr0 : List PLItem := [⟨some ("v0"), none⟩, ⟨none, some (some (("t0"), ("i0")))⟩]

/-- A continuation page whose last item carries a fresh token t1, i1. -/
def plPage1 : List PLItem := [⟨some ("v1"), none⟩, ⟨none, some (some (("t1"), ("i1")))⟩]

/-- A final continuation page without a continuation item. -/
def plPage2 : List PLItem := [⟨some ("v2"), none⟩]

/-- A community continuation page with one entry and no continuations:
the truthiness test on it is false. -/
def cStopPage : CPage := ⟨[("e1")], []⟩

/-- A community continuation page with one entry and one continuation. -/
def cMorePage : CPage := ⟨[("e2")], [("c1")]⟩

/-- An initial history page whose single section carries a complete
continuation item, so the continuation loop starts. -/
def hInit0 : HInit := ⟨[⟨none, some (some (("t"), ("i")))⟩], none⟩

/-! ## Supporting lemmas -/

set_option maxRecDepth 8000

/-- SHA-1 of the three-byte message abc, against the FIPS 180 test vector. -/
theorem sha1_fips_vector_abc : sha1HexLower (encodeUTF8 ("abc")) = ("a9993e364706816aba3e25717850c26c9cd0d89d") := by
  decide

/-- SHA-1 of the empty message, against the FIPS 180 test vector. -/
theorem sha1_fips_vector_empty : sha1HexLower (encodeUTF8 ("")) = ("da39a3ee5e6b4b0d3255bfef95601890afd80709") := by
  decide

/-- A whole header computed by the model agrees with what hashlib.sha1
produces for the same timestamp and cookie jar (cross-checked against the
reference implementation the source calls). -/
theorem sapisidhash_reference_vector :
    authHeaderFromJar 1234567890 [(("SAPISID"), ("secretvalue"))] =
      .ok ("SAPISIDHASH 1234567890_8877bcef92c31bc76cf6f145f95d8e9c96a8d5ad") := by
  decide

/-- A hex digit of a value below 16 is one of the sixteen lowercase hex
characters. -/
theorem hexDigit_mem_hex (n : Nat) (h : n < 16) : hexDigit n ∈ ("0123456789abcdef").data := by
  interval_cases n <;> decide

/-- Both characters of a byte rendering are lowercase hex characters. -/
theorem byteToHex_mem_hex (b : Nat) (hb : b < 256) : ∀ c ∈ byteToHex b, c ∈ ("0123456789abcdef").data := by
  intro c hc
  simp only [byteToHex, List.mem_cons, List.not_mem_nil, or_false] at hc
  rcases hc with rfl | rfl
  · exact hexDigit_mem_hex _ ((Nat.div_lt_iff_lt_mul (by norm_num)).mpr (by omega))
  · exact hexDigit_mem_hex _ (Nat.mod_lt _ (by norm_num))

/-- Every byte beBytes produces is below 256. -/
theorem beBytes_lt (k n : Nat) : ∀ b ∈ beBytes k n, b < 256 := by
  induction k generalizing n with
  | zero => intro b hb; cases hb
  | succ k ih =>
    intro b hb
    simp only [beBytes, List.mem_cons] at hb
    rcases hb with rfl | hb
    · exact Nat.mod_lt _ (by norm_num)
    · exact ih n b hb

/-- Every byte of a SHA-1 digest is below 256. -/
theorem sha1Bytes_lt (msg : List Nat) : ∀ b ∈ sha1Bytes msg, b < 256 := by
  intro b hb
  simp only [sha1Bytes, List.mem_append] at hb
  rcases hb with ((((hb | hb) | hb) | hb) | hb) <;> exact beBytes_lt _ _ b hb

/-- The length of a four-byte big-endian rendering. -/
theorem beBytes_four_length (n : Nat) : (beBytes 4 n).length = 4 := rfl

/-- A SHA-1 digest has 20 bytes. -/
theorem sha1Bytes_length (msg : List Nat) : (sha1Bytes msg).length = 20 := by
  simp [sha1Bytes, List.length_append, beBytes_four_length]

/-- The hex rendering of a byte list whose bytes are below 256 has twice
as many characters as bytes, all of them lowercase hex characters. -/
theorem hexPairs_spec (bs : List Nat) (hb : ∀ b ∈ bs, b < 256) :
    ((bs.map byteToHex).flatten).length = 2 * bs.length
    ∧ ∀ c ∈ (bs.map byteToHex).flatten, c ∈ ("0123456789abcdef").data := by
  induction bs with
  | nil => exact ⟨rfl, by intro c hc; cases hc⟩
  | cons b rest ih =>
    have hrest := ih (fun x hx => hb x (by simp [hx]))
    constructor
    · simp only [List.map_cons, List.flatten_cons, List.length_append, hrest.1, byteToHex]
      simp [List.length_cons]
      omega
    · intro c hc
      simp only [List.map_cons, List.flatten_cons, List.mem_append] at hc
      rcases hc with hc | hc
      · exact byteToHex_mem_hex b (hb b (by simp)) c hc
      · exact hrest.2 c hc

/-- The digest string hexdigest returns has 40 characters, each a
lowercase hex character. -/
theorem sha1HexLower_spec (msg : List Nat) :
    (sha1HexLower msg).data.length = 40
    ∧ ∀ c ∈ (sha1HexLower msg).data, c ∈ ("0123456789abcdef").data := by
  have h := hexPairs_spec (sha1Bytes msg) (sha1Bytes_lt msg)
  constructor
  · show ((sha1Bytes msg).map byteToHex).flatten.length = 40
    rw [h.1, sha1Bytes_length]
  · exact h.2

/-- The cookie scan of lines 426-429 returns the value of the first
matching cookie, in the sense of find? on the jar in iteration order. -/
theorem sapisidFromJar_eq_find (jar : List (String × String)) :
    sapisidFromJar jar = (jar.find? (fun x => isSapisidName x.1)).map Prod.snd := by
  induction jar with
  | nil => rfl
  | cons c rest ih =>
    cases h : isSapisidName c.1
    · rw [List.find?_cons_of_neg _ (by simp [h])]
      simp only [sapisidFromJar, h]
      simpa using ih
    · rw [List.find?_cons_of_pos _ (by simp [h])]
      simp [sapisidFromJar, h]

/-! ## The claims -/

/-- C2: for every timestamp t and selected session-cookie value s, the
header is exactly SAPISIDHASH, a space, the timestamp, an underscore and
the lowercase hex SHA-1 digest of the byte string joining the timestamp,
the secret and the origin with single spaces; the digest has 40 lowercase
hex characters; the hash is a deterministic function of the inputs; and
whenever the jar scan selects s, the method returns exactly that header. -/
theorem c2_theorem :
    (∀ (t : Nat) (s : String),
        authorization_sapisidhash t s =
          ("SAPISIDHASH ") ++ toString t ++ ("_") ++
            sha1HexLower (encodeUTF8 (toString t ++ (" ") ++ s ++ (" ") ++ ("https://www.youtube.com"))))
    ∧ (∀ (t1 t2 : Nat) (s1 s2 : String), t1 = t2 → s1 = s2 →
        authorization_sapisidhash t1 s1 = authorization_sapisidhash t2 s2)
    ∧ (∀ (t : Nat) (s : String),
        (sha1HexLower (encodeUTF8 (sapisidHashMessage t s))).data.length = 40
        ∧ ∀ c ∈ (sha1HexLower (encodeUTF8 (sapisidHashMessage t s))).data, c ∈ ("0123456789abcdef").data)
    ∧ (∀ (t : Nat) (jar : List (String × String)) (s : String),
        sapisidFromJar jar = some s →
        authHeaderFromJar t jar = .ok (authorization_sapisidhash t s)) := by
  refine ⟨fun t s => rfl, fun t1 t2 s1 s2 h1 h2 => by rw [h1, h2], fun t s => sha1HexLower_spec _, ?_⟩
  intro t jar s h
  simp [authHeaderFromJar, h]

/-- C10: whenever the jar holds a cookie named SAPISID or
__Secure-3PAPISID, the assert of line 430 passes and the value of the
first such cookie in jar iteration order becomes the hash secret; with no
such cookie the call raises AssertionError and returns no header. -/
theorem c10_theorem :
    (∀ (t : Nat) (jar : List (String × String)) (c : String × String),
        jar.find? (fun x => isSapisidName x.1) = some c →
        authHeaderFromJar t jar = .ok (authorization_sapisidhash t c.2))
    ∧ (∀ (t : Nat) (jar : List (String × String)),
        jar.find? (fun x => isSapisidName x.1) = none →
        authHeaderFromJar t jar = .raised .assertionError)
    ∧ (∀ jar : List (String × String),
        sapisidFromJar jar = (jar.find? (fun x => isSapisidName x.1)).map Prod.snd) := by
  refine ⟨?_, ?_, sapisidFromJar_eq_find⟩
  · intro t jar c h
    have hj := sapisidFromJar_eq_find jar
    rw [h] at hj
    simp [authHeaderFromJar, hj]
  · intro t jar h
    have hj := sapisidFromJar_eq_find jar
    rw [h] at hj
    simp [authHeaderFromJar, hj]

/-- C4: the loop of get_playlist_info re-reads the continuation endpoint
from video_list_renderer, the renderer of the page fetched before the
loop, which is never reassigned, instead of from the freshly fetched
items. On a run where the first continuation page carries the new token
t1, i1, both fetches are issued with the initial token t0, i0: the second
request parameter does not equal the token of the immediately preceding
response page, contradicting the claim (and the evident intent of the
update branch at lines 236-244, which get_history_info implements
correctly against the fresh response at lines 352-363, and which is dead
code as written since it can only reinstate the initial token). -/
theorem c4_theorem :
    playlistLoop plVlr0 ("t0") ("i0") [plPage1, plPage2] =
      ([(("t0"), ("i0")), (("t0"), ("i0"))], [("v1"), ("v2")])
    ∧ lastCIRTok plPage1 = some ((("t1"), ("i1")))
    ∧ (playlistLoop plVlr0 ("t0") ("i0") [plPage1, plPage2]).1.getD 1 ((""), ("")) ≠ (("t1"), ("i1")) := by
  decide

/-- C5 counterexample: remove_video_id_from_playlist invoked with
cache_values stores the fetched page values in _rsvi_cache, so the
attribute is no longer None after one such call from the constructor
state; the second conjunct evaluates the full operation model on a
successful transport from an empty cache. -/
theorem c5_counterexample :
    (cacheStep (Op.removeVideoIdFromPlaylist true) initState).rsviCache = some ()
    ∧ (remove_video_id_from_playlist true true none ⟨true, true, ("STATUS_SUCCEEDED")⟩).cache = some () := by
  decide

/-- C5 as amended: _rsvi_cache is None at construction and every
operation preserves it, except remove_video_id_from_playlist called with
cache_values set, which stores the page values it used. -/
theorem c5_amended :
    initState.rsviCache = none
    ∧ (∀ st, cacheStep (Op.removeVideoIdFromPlaylist false) st = st)
    ∧ (∀ st, cacheStep Op.clearWatchHistory st = st)
    ∧ (∀ st, cacheStep Op.getPlaylistInfo st = st)
    ∧ (∀ st, cacheStep Op.clearPlaylist st = st)
    ∧ (∀ st, cacheStep Op.clearWatchLater st = st)
    ∧ (∀ st, cacheStep Op.getHistoryInfo st = st)
    ∧ (∀ st, cacheStep Op.removeVideoIdsFromHistory st = st)
    ∧ (∀ st, cacheStep Op.toggleSearchHistory st = st)
    ∧ (∀ st, cacheStep Op.toggleWatchHistory st = st)
    ∧ (∀ st, cacheStep Op.communityHistory st = st)
    ∧ (∀ st, cacheStep Op.deleteCommunityEntry st = st)
    ∧ (∀ st, cacheStep Op.clearSearchHistory st = st)
    ∧ (∀ st, cacheStep Op.login st = st)
    ∧ (∀ (cache : Option Unit) (tr : Transport),
        (remove_video_id_from_playlist true false cache tr).cache = cache) := by
  refine ⟨rfl, fun st => rfl, fun st => rfl, fun st => rfl, fun st => rfl, fun st => rfl,
    fun st => rfl, fun st => rfl, fun st => rfl, fun st => rfl, fun st => rfl, fun st => rfl,
    fun st => rfl, fun st => rfl, ?_⟩
  intro cache tr
  obtain ⟨po, qo, s⟩ := tr
  cases po <;> cases qo <;> rfl

/-- C6 counterexample: remove_video_id_from_playlist on a transport whose
page GET fails issues exactly one request and propagates the HTTPError
immediately, with no retry and no backoff sleep: its single request is not
wrapped in the retry loop the claim asserts for every operation. -/
theorem c6_counterexample :
    remove_video_id_from_playlist true false none ⟨false, true, ("x")⟩ =
      ⟨[Ev.fetch WATCH_LATER_URL], none, .raised .httpError⟩ := by
  decide

/-- C6 as amended: only the continuation fetch inside get_history_info is
wrapped in the retry-with-exponential-backoff loop (a failed attempt is
retried after sleeping 2, then 4, 8, 16 seconds, for at most 5 attempts);
every other request, here both requests of
remove_video_id_from_playlist and the page fetch of _toggle_history, is
issued once and a transient failure propagates immediately. -/
theorem c6_amended :
    (∀ (p : HPage) (rest : List FetchAttempt),
        histLoop 0 false (FetchAttempt.failure :: FetchAttempt.success p :: rest) = ⟨[], [2], none, 2⟩)
    ∧ (∀ rest : List FetchAttempt,
        histLoop 0 false (FetchAttempt.failure :: FetchAttempt.failure :: FetchAttempt.failure ::
          FetchAttempt.failure :: FetchAttempt.failure :: rest) = ⟨[], [2, 4, 8, 16], none, 5⟩)
    ∧ (∀ (cacheValues postOk : Bool) (s : String),
        remove_video_id_from_playlist true cacheValues none ⟨false, postOk, s⟩ =
          ⟨[Ev.fetch WATCH_LATER_URL], none, .raised .httpError⟩)
    ∧ (∀ s : String,
        remove_video_id_from_playlist true false none ⟨true, false, s⟩ =
          ⟨[Ev.fetch WATCH_LATER_URL, Ev.extract, Ev.post EDIT_PLAYLIST_URL], none, .raised .httpError⟩)
    ∧ (∀ (url : String) (pathOk postOk pr : Bool),
        toggle_history true url false pathOk postOk pr = ([Ev.fetch url], .raised .httpError)) := by
  refine ⟨fun p rest => rfl, fun rest => rfl, ?_, fun s => rfl, fun url a b c => rfl⟩
  intro cv po s
  cases cv <;> rfl

/-- C7 counterexample: a second remove_video_id_from_playlist call with
cache_values, after a first one has filled _rsvi_cache (third conjunct),
issues its mutating POST with no page fetch and no extraction in that
call: the trace is a single POST event. -/
theorem c7_counterexample :
    (remove_video_id_from_playlist true true (some ()) ⟨true, true, ("STATUS_SUCCEEDED")⟩).events =
      [Ev.post EDIT_PLAYLIST_URL]
    ∧ postsGuardedOk [Ev.post EDIT_PLAYLIST_URL] = false
    ∧ (cacheStep (Op.removeVideoIdFromPlaylist true) initState).rsviCache = some () := by
  decide

/-- C7 as amended: in every call that is not reusing cached values
(remove_video_id_from_playlist with cache_values and a warm cache) and
not given a preloaded config (delete_community_entry with an explicit
ytcfg), every mutating POST is preceded in the same call by a page fetch
and by the extraction of the embedded config and data. -/
theorem c7_amended :
    (∀ (cv : Bool) (tr : Transport), postsGuardedOk (remove_video_id_from_playlist true cv none tr).events = true)
    ∧ (∀ (cache : Option Unit) (tr : Transport), postsGuardedOk (remove_video_id_from_playlist true false cache tr).events = true)
    ∧ (∀ a b c : Bool, postsGuardedOk (clear_watch_history true a b c).1 = true)
    ∧ (∀ (url : String) (a b c d : Bool), postsGuardedOk (toggle_history true url a b c d).1 = true)
    ∧ (∀ tr : Transport, postsGuardedOk (delete_community_entry true false tr).1 = true)
    ∧ (∀ a b c d : Bool, postsGuardedOk (clear_search_history true a b c d).1 = true) := by
  refine ⟨?_, ?_, ?_, ?_, ?_, ?_⟩
  · intro cv tr; obtain ⟨po, qo, s⟩ := tr; cases cv <;> cases po <;> cases qo <;> rfl
  · intro cache tr; obtain ⟨po, qo, s⟩ := tr; cases po <;> cases qo <;> rfl
  · intro a b c; cases a <;> cases b <;> cases c <;> rfl
  · intro url a b c d; cases a <;> cases b <;> cases c <;> rfl
  · intro tr; obtain ⟨po, qo, s⟩ := tr; cases po <;> cases qo <;> rfl
  · intro a b c d; cases a <;> cases b <;> cases c <;> rfl

/-- C8: with logged_in false, every state-reading or state-mutating
operation raises AuthenticationError before issuing any HTTP request (its
event trace is empty). For the generator-returning operations the modelled
function is the generator body, which Python runs at the first iteration
of the returned iterator, not at the call; the call itself executes none
of it. -/
theorem c8_theorem :
    (∀ (cv : Bool) (cache : Option Unit) (tr : Transport),
        remove_video_id_from_playlist false cv cache tr = ⟨[], cache, .raised .authenticationError⟩)
    ∧ (∀ a b c : Bool, clear_watch_history false a b c = ([], .raised .authenticationError))
    ∧ (∀ (pid : String) (v : Option (List PLItem)) (pages : List (List PLItem)),
        get_playlist_info false pid v pages = ([], .raised .authenticationError))
    ∧ (∀ (init : HInit) (stream : List FetchAttempt),
        get_history_info false init stream = ([], ⟨[], [], some .authenticationError, 0⟩))
    ∧ (∀ (ofp : Bool) (e0 c0 : List String) (pages : List CPage),
        community_history false ofp e0 c0 pages = ([], .raised .authenticationError))
    ∧ (∀ (ids : List String) (h : List HistVid) (rc : HistVid → String),
        remove_video_ids_from_history false ids h rc = ([], .raised .authenticationError))
    ∧ (∀ (url : String) (a b c d : Bool),
        toggle_history false url a b c d = ([], .raised .authenticationError))
    ∧ (∀ a b c d : Bool, toggle_search_history false a b c d = ([], .raised .authenticationError))
    ∧ (∀ a b c d : Bool, toggle_watch_history false a b c d = ([], .raised .authenticationError))
    ∧ (∀ (g : Bool) (tr : Transport), delete_community_entry false g tr = ([], .raised .authenticationError))
    ∧ (∀ a b c d : Bool, clear_search_history false a b c d = ([], .raised .authenticationError))
    ∧ (∀ (pid : String) (v : Option (List PLItem)) (pages : List (List PLItem)) (tr : Transport),
        clear_playlist false pid v pages tr = ([], .raised .authenticationError))
    ∧ (∀ (v : Option (List PLItem)) (pages : List (List PLItem)) (tr : Transport),
        clear_watch_later false v pages tr = ([], .raised .authenticationError)) := by
  exact ⟨fun _ _ _ => rfl, fun _ _ _ => rfl, fun _ _ _ => rfl, fun _ _ => rfl, fun _ _ _ _ => rfl,
    fun _ _ _ => rfl, fun _ _ _ _ _ => rfl, fun _ _ _ _ => rfl, fun _ _ _ _ => rfl,
    fun _ _ => rfl, fun _ _ _ _ => rfl, fun _ _ _ _ => rfl, fun _ _ _ => rfl⟩

/-- The community loop with no pending and no current continuations
yields nothing, whatever responses are scripted. -/
theorem commGo_nil_nil (pages : List CPage) : commGo [] [] pages = ([], 0) := by
  cases pages <;> rfl

/-- Stability of the playlist continuation loop: once some scripted page
ends the loop, later scripted pages change nothing. -/
theorem playlistLoop_stop_stable (vlr : List PLItem) (ps extra : List (List PLItem)) :
    ∀ t i : String, (∃ p ∈ ps, lastHasCIR p = false) →
      playlistLoop vlr t i (ps ++ extra) = playlistLoop vlr t i ps := by
  induction ps with
  | nil =>
    intro t i h
    obtain ⟨p, hp, _⟩ := h
    exact absurd hp (List.not_mem_nil p)
  | cons q qs ih =>
    intro t i h
    obtain ⟨p, hp, hstop⟩ := h
    by_cases hq : lastHasCIR q = true
    · have hex : ∃ p ∈ qs, lastHasCIR p = false := by
        rcases List.mem_cons.mp hp with rfl | hm
        · rw [hq] at hstop; cases hstop
        · exact ⟨p, hm, hstop⟩
      simp only [List.cons_append, playlistLoop, hq, if_true, List.append_eq]
      rw [ih _ _ hex]
    · simp only [List.cons_append, playlistLoop]
      rw [if_neg hq, if_neg hq]

/-- Stability of the history continuation loop: once some successfully
fetched page carries no continuation, later scripted attempts change
nothing. -/
theorem histLoop_stop_stable (ps : List HPage) (extra : List FetchAttempt) :
    (∃ p ∈ ps, hPageStops p = true) →
      histLoop 0 false (ps.map FetchAttempt.success ++ extra) =
        histLoop 0 false (ps.map FetchAttempt.success) := by
  induction ps with
  | nil =>
    intro h
    obtain ⟨p, hp, _⟩ := h
    exact absurd hp (List.not_mem_nil p)
  | cons q qs ih =>
    intro h
    obtain ⟨p, hp, hstop⟩ := h
    by_cases hq : hPageStops q = true
    · simp only [List.map_cons, List.cons_append, histLoop, hq, if_true]
    · have hex : ∃ p ∈ qs, hPageStops p = true := by
        rcases List.mem_cons.mp hp with rfl | hm
        · exact absurd hstop hq
        · exact ⟨p, hm, hstop⟩
      simp only [List.map_cons, List.cons_append, histLoop, hq, List.append_eq]
      rw [ih hex]

/-- Stability of the community continuation loop under the response shape
the site returns, where every continuations list has at most one entry:
once some scripted page carries no continuation, later scripted pages
change nothing. -/
theorem commGo_stop_stable (ps extra : List CPage) :
    ∀ conts secConts : List String, conts.length ≤ 1 → secConts.length ≤ 1 →
      (∀ p ∈ ps, p.conts.length ≤ 1) → (∃ p ∈ ps, p.conts = []) →
      commGo conts secConts (ps ++ extra) = commGo conts secConts ps := by
  induction ps with
  | nil =>
    intro _ _ _ _ _ h
    obtain ⟨p, hp, _⟩ := h
    exact absurd hp (List.not_mem_nil p)
  | cons q qs ih =>
    intro conts secConts h1 h2 h3 h4
    have hq1 : q.conts.length ≤ 1 := h3 q (List.mem_cons_self q qs)
    have h3q : ∀ p ∈ qs, p.conts.length ≤ 1 := fun p hp => h3 p (List.mem_cons_of_mem q hp)
    have step : commGo ([] : List String) q.conts (qs ++ extra) = commGo [] q.conts qs := by
      by_cases hqc : q.conts = []
      · rw [hqc, commGo_nil_nil, commGo_nil_nil]
      · have hex : ∃ p ∈ qs, p.conts = [] := by
          obtain ⟨p, hp, hpc⟩ := h4
          rcases List.mem_cons.mp hp with rfl | hm
          · exact absurd hpc hqc
          · exact ⟨p, hm, hpc⟩
        exact ih [] q.conts (by simp) hq1 h3q hex
    cases conts with
    | cons c cs =>
      have hcs : cs = [] := by
        simp only [List.length_cons] at h1
        exact List.eq_nil_of_length_eq_zero (by omega)
      subst hcs
      simp only [List.cons_append, commGo, List.append_eq]
      rw [step]
    | nil =>
      cases secConts with
      | nil => simp only [List.cons_append, commGo]
      | cons s ss =>
        have hss : ss = [] := by
          simp only [List.length_cons] at h2
          exact List.eq_nil_of_length_eq_zero (by omega)
        subst hss
        simp only [List.cons_append, commGo, List.append_eq]
        rw [step]

/-- C1 counterexample: in _community_history, when the current section
carries two pending continuation entries, the for statement keeps
fetching after a fetched page with no continuations: with the scripted
pages below the first fetched page (cStopPage) carries no continuation
token, yet the run that has one more scripted page fetches it and yields
its entry e2, so the enumeration did not exit as soon as a fetched page
carried no token. -/
theorem c1_counterexample :
    cStopPage.conts = []
    ∧ commGo [("a"), ("b")] [("a"), ("b")] [cStopPage, cMorePage] = ([("e1"), ("e2")], 2)
    ∧ commGo [("a"), ("b")] [("a"), ("b")] [cStopPage] = ([("e1")], 1)
    ∧ commGo [("a"), ("b")] [("a"), ("b")] [cStopPage, cMorePage] ≠
        commGo [("a"), ("b")] [("a"), ("b")] [cStopPage] := by
  refine ⟨rfl, by decide, by decide, by decide⟩

/-- C1 as amended: the playlist and history enumeration loops exit as
soon as a fetched page carries no continuation token (pages scripted
after such a page change nothing, so the iterator yields finitely many
items); the community loop iterates every pending entry of the previous
continuations list, so the same holds for it whenever every continuations
list carries at most one entry, the shape the site returns. -/
theorem c1_amended :
    (∀ (vlr : List PLItem) (ps extra : List (List PLItem)) (t i : String),
        (∃ p ∈ ps, lastHasCIR p = false) →
        playlistLoop vlr t i (ps ++ extra) = playlistLoop vlr t i ps)
    ∧ (∀ (ps : List HPage) (extra : List FetchAttempt),
        (∃ p ∈ ps, hPageStops p = true) →
        histLoop 0 false (ps.map FetchAttempt.success ++ extra) =
          histLoop 0 false (ps.map FetchAttempt.success))
    ∧ (∀ (ps extra : List CPage) (conts secConts : List String),
        conts.length ≤ 1 → secConts.length ≤ 1 →
        (∀ p ∈ ps, p.conts.length ≤ 1) → (∃ p ∈ ps, p.conts = []) →
        commGo conts secConts (ps ++ extra) = commGo conts secConts ps) :=
  ⟨fun vlr ps extra t i h => playlistLoop_stop_stable vlr ps extra t i h,
   fun ps extra h => histLoop_stop_stable ps extra h,
   fun ps extra conts secConts h1 h2 h3 h4 => commGo_stop_stable ps extra conts secConts h1 h2 h3 h4⟩

/-- C3 counterexample: when all five attempts of the retry loop fail, the
generator sleeps 2, 4, 8 and 16 seconds between the attempts, then logs
the last error and simply stops: the run ends with no exception raised
(raised is none), so the last error is not surfaced to the caller. -/
theorem c3_counterexample :
    get_history_info true hInit0 (List.replicate 5 FetchAttempt.failure) =
      ([Ev.fetch HISTORY_URL, Ev.extract, Ev.walk, Ev.fetch BROWSE_AJAX_URL, Ev.fetch BROWSE_AJAX_URL,
        Ev.fetch BROWSE_AJAX_URL, Ev.fetch BROWSE_AJAX_URL, Ev.fetch BROWSE_AJAX_URL],
       ⟨[], [2, 4, 8, 16], none, 5⟩)
    ∧ (get_history_info true hInit0 (List.replicate 5 FetchAttempt.failure)).2.raised = none := by
  refine ⟨by decide, by decide⟩

/-- C3 as amended: the continuation fetch of get_history_info is retried
on HTTPError for up to 5 attempts, sleeping 2 ^ attempt seconds before
each retry (2, 4, 8, 16); after the fifth failure the generator logs the
last error and ends the iteration normally, raising nothing. -/
theorem c3_amended :
    (∀ rest : List FetchAttempt,
        histLoop 0 false (FetchAttempt.failure :: FetchAttempt.failure :: FetchAttempt.failure ::
          FetchAttempt.failure :: FetchAttempt.failure :: rest) = ⟨[], [2, 4, 8, 16], none, 5⟩)
    ∧ (∀ (p : HPage) (rest : List FetchAttempt),
        histLoop 0 false (FetchAttempt.failure :: FetchAttempt.success p :: rest) = ⟨[], [2], none, 2⟩) :=
  ⟨fun _ => rfl, fun _ _ => rfl⟩

/-- C9: remove_video_ids_from_history returns False and issues no
deletion POST when the video id list is empty, and likewise when no
fetched history entry matches; otherwise it issues one deletion POST per
matching entry and returns True exactly when every response code is
SUCCESS. -/
theorem c9_theorem :
    (∀ (history : List HistVid) (rc : HistVid → String),
        remove_video_ids_from_history true [] history rc = ([], .ok (false, [])))
    ∧ (∀ (videoIds : List String) (history : List HistVid) (rc : HistVid → String),
        videoIds ≠ [] → history.filter (fun x => videoIds.contains x.videoId) = [] →
        remove_video_ids_from_history true videoIds history rc =
          ([Ev.fetch HISTORY_URL, Ev.extract], .ok (false, [])))
    ∧ (∀ (videoIds : List String) (history : List HistVid) (rc : HistVid → String),
        videoIds ≠ [] → history.filter (fun x => videoIds.contains x.videoId) ≠ [] →
        remove_video_ids_from_history true videoIds history rc =
          ([Ev.fetch HISTORY_URL, Ev.extract] ++
             (history.filter (fun x => videoIds.contains x.videoId)).map (fun _ => Ev.post SERVICE_AJAX_URL),
           .ok ((history.filter (fun x => videoIds.contains x.videoId)).all (fun e => rc e == ("SUCCESS")),
                history.filter (fun x => videoIds.contains x.videoId))))
    ∧ (∀ (entries : List HistVid) (rc : HistVid → String),
        (entries.all (fun e => rc e == ("SUCCESS")) = true ↔ ∀ e ∈ entries, rc e = ("SUCCESS"))) := by
  refine ⟨fun history rc => rfl, ?_, ?_, ?_⟩
  · intro videoIds history rc hne hfil
    obtain ⟨v, vs, rfl⟩ : ∃ v vs, videoIds = v :: vs := by
      cases videoIds with
      | nil => exact absurd rfl hne
      | cons a l => exact ⟨a, l, rfl⟩
    unfold remove_video_ids_from_history
    rw [hfil]
    rfl
  · intro videoIds history rc hne hfil
    obtain ⟨v, vs, rfl⟩ : ∃ v vs, videoIds = v :: vs := by
      cases videoIds with
      | nil => exact absurd rfl hne
      | cons a l => exact ⟨a, l, rfl⟩
    obtain ⟨e, es, hfe⟩ : ∃ e es, history.filter (fun x => (v :: vs).contains x.videoId) = e :: es := by
      cases hh : history.filter (fun x => (v :: vs).contains x.videoId) with
      | nil => exact absurd hh hfil
      | cons a l => exact ⟨a, l, rfl⟩
    unfold remove_video_ids_from_history
    rw [hfe]
    rfl
  · intro entries rc
    simp [List.all_eq_true]
